import Mathlib

/-!
Verification development for the Q-Chat classroom forum client
(`frontend/src/components/ForumFeed.tsx`, `QuestionThread` in
`frontend/src/components/Markdown.tsx`, `AIChatWindow.tsx`, `App.tsx`).

The client keeps an in-memory replica of server-owned entities
(questions, comments, chat transcripts) and mutates it optimistically.
The definitions below are a shallow embedding of that logic:

* JavaScript `Record<string, number>` reaction-count objects are modelled
  as ordered association lists `List (String × Int)`; `recGet`/`recSet`
  model property read and property assignment (assignment overwrites the
  first matching key in place, otherwise appends, matching JS object
  key-insertion order), and `recGetD m k` models `m[k] || 0`.
* JS string `split(',')` and `trim()` are modelled character-wise by
  `jsSplitComma` and `jsTrim`.
* A network call's result is an `Outcome`: `netError` (fetch threw),
  `rejected detail` (non-2xx response), or `ok body` (2xx response).
* Each mutation handler becomes a function from the pre-state and the
  `Outcome` to the post-state together with the user-visible effects it
  produced (`alerted` — an `alert(...)` was shown, `refetched` — an
  immediate re-fetch of the authoritative list was triggered).
-/

namespace ChatApp

/-! ## JS `Record<string, number>` as an ordered association list -/

/-- Reaction-count map, as stored in `Question.reactions` /
`Comment.reactions` (`Record<string, number>` in the source). -/
abbrev Reactions := List (String × Int)

/-- Property read `m[k]`: first binding of key `k`, if any. -/
def recGet : Reactions → String → Option Int
  | [], _ => none
  | (k₀, v₀) :: rest, k => if k₀ = k then some v₀ else recGet rest k

/-- The read idiom `m[k] || 0` used throughout the reaction handlers:
a missing key reads as `0` (and a stored `0` also reads as `0`). -/
def recGetD (m : Reactions) (k : String) : Int :=
  (recGet m k).getD 0

/-- Property assignment `m[k] = v`: overwrite the first binding of `k`
in place, otherwise append a new binding (JS key-insertion order). -/
def recSet : Reactions → String → Int → Reactions
  | [], k, v => [(k, v)]
  | (k₀, v₀) :: rest, k, v =>
    if k₀ = k then (k, v) :: rest else (k₀, v₀) :: recSet rest k v

/-! ## Entity replica shapes -/

/-- The `Question` replica shape of `ForumFeed.tsx`. -/
structure Question where
  id : Nat
  author : String
  content : String
  tags : List String
  resolved : Bool
  reactions : Reactions
  user_reaction : Option String
  comment_count : Int
deriving DecidableEq

/-- The `Comment` replica shape of `QuestionThread`. -/
structure Comment where
  id : Nat
  question_id : Nat
  author : String
  content : String
  created_at : String
  reactions : Reactions
  user_reaction : Option String
deriving DecidableEq

/-! ## Optimistic reaction toggle

The update inside `handleReaction` (ForumFeed), `handleQuestionReaction`
and `handleCommentReaction` (QuestionThread) is textually identical; it
is factored here over the pair (reactions, user_reaction).  The guard
`if (q.user_reaction)` in the source is JS truthiness, which is false
for `null` and for the empty string; the `old = ""` test models the
empty-string case. -/

/-- The (reactions, user_reaction) pair the toggle operates on. -/
structure ReactionState where
  reactions : Reactions
  user_reaction : Option String
deriving DecidableEq

/-- Optimistic update of `handleReaction`:
`isRemoving = (user_reaction === reactionType)`; the previously active
kind (if truthy) is decremented clamped at 0; unless removing, the
chosen kind is incremented; `user_reaction` becomes `null` when
removing, else `reactionType`. -/
def toggleReaction (s : ReactionState) (reactionType : String) : ReactionState :=
  let counts₁ :=
    match s.user_reaction with
    | none => s.reactions
    | some old =>
      if old = "" then s.reactions
      else recSet s.reactions old (max 0 (recGetD s.reactions old - 1))
  if s.user_reaction = some reactionType then
    ⟨counts₁, none⟩
  else
    ⟨recSet counts₁ reactionType (recGetD counts₁ reactionType + 1), some reactionType⟩

/-- `handleReaction`'s optimistic update applied to one question. -/
def reactOptimistic (q : Question) (reactionType : String) : Question :=
  let s := toggleReaction ⟨q.reactions, q.user_reaction⟩ reactionType
  { q with reactions := s.reactions, user_reaction := s.user_reaction }

/-- `handleCommentReaction`'s optimistic update applied to one comment. -/
def commentReactOptimistic (c : Comment) (reactionType : String) : Comment :=
  let s := toggleReaction ⟨c.reactions, c.user_reaction⟩ reactionType
  { c with reactions := s.reactions, user_reaction := s.user_reaction }

/-- The `setQuestions(prev => prev.map(q => ...))` step of
`handleReaction`: toggle only the targeted question. -/
def applyReactToList (qs : List Question) (questionId : Nat) (reactionType : String) :
    List Question :=
  qs.map fun q => if q.id = questionId then reactOptimistic q reactionType else q

/-! ## JS string operations

`split(',')`, `trim()` and `filter(Boolean)` are modelled on the
character list of the string. -/

/-- Helper for `jsSplitComma`: accumulate the current piece (reversed)
and cut at every comma. -/
def jsSplitCommaAux : List Char → List Char → List (List Char)
  | [], acc => [acc.reverse]
  | c :: rest, acc =>
    if c = ',' then acc.reverse :: jsSplitCommaAux rest []
    else jsSplitCommaAux rest (c :: acc)

/-- JS `s.split(',')`: pieces between commas, keeping empty pieces
(`"".split(',') === [""]`). -/
def jsSplitComma (s : String) : List String :=
  (jsSplitCommaAux s.data []).map fun cs => String.mk cs

/-- JS `s.trim()`: drop leading and trailing whitespace. -/
def jsTrim (s : String) : String :=
  String.mk (((s.data.dropWhile Char.isWhitespace).reverse.dropWhile
    Char.isWhitespace).reverse)

/-- The tags pipeline of `submitQuestion` and `saveEditQuestion`:
`tagsInput.split(',').map(t => t.trim()).filter(Boolean)`. -/
def parseTags (tagsInput : String) : List String :=
  ((jsSplitComma tagsInput).map jsTrim).filter fun t => t ≠ ""

/-! ## Network call outcomes and mutation handlers

Each `async` handler is embedded as a function of the pre-state and the
outcome of its single network call.  `HandlerResult` records the replica
list after the handler finished (before any triggered re-fetch lands)
together with the user-visible effects. -/

/-- Result of one network call: `fetch` threw (`netError`), returned a
non-2xx response with optional `detail` (`rejected`), or returned a 2xx
response with a parsed body (`ok`). -/
inductive Outcome (α : Type) where
  | netError : Outcome α
  | rejected : Option String → Outcome α
  | ok : α → Outcome α
deriving DecidableEq

/-- Replica state and user-visible effects after a handler completes. -/
structure HandlerResult where
  questions : List Question
  alerted : Bool
  refetched : Bool
deriving DecidableEq

/-- `handleReaction` in `ForumFeed.tsx`: if not logged in, alert and
stop; otherwise apply the optimistic toggle, then issue the react call.
The `catch` branch (network failure) logs and triggers `fetchQuestions`;
a response is never checked for `res.ok`, so both 2xx and non-2xx
responses leave the optimistic state untouched. -/
def handleReactionRun (user : Option String) (qs : List Question)
    (questionId : Nat) (reactionType : String) (outcome : Outcome Unit) :
    HandlerResult :=
  match user with
  | none => ⟨qs, true, false⟩
  | some _ =>
    let optimistic := applyReactToList qs questionId reactionType
    match outcome with
    | .netError => ⟨optimistic, false, true⟩
    | .rejected _ => ⟨optimistic, false, false⟩
    | .ok _ => ⟨optimistic, false, false⟩

/-- `setResolved` in `ForumFeed.tsx`: if not logged in, alert and stop;
otherwise patch `resolved` optimistically, then on a 2xx response
replace the question by the server-returned body, and on either failure
kind alert and trigger `fetchQuestions`. -/
def setResolvedRun (user : Option String) (qs : List Question)
    (questionId : Nat) (resolved : Bool) (outcome : Outcome Question) :
    HandlerResult :=
  match user with
  | none => ⟨qs, true, false⟩
  | some _ =>
    let optimistic := qs.map fun q =>
      if q.id = questionId then { q with resolved := resolved } else q
    match outcome with
    | .ok body =>
      ⟨optimistic.map (fun q => if q.id = questionId then body else q), false, false⟩
    | _ => ⟨optimistic, true, true⟩

/-- `deleteQuestion` in `ForumFeed.tsx`: silently stops when not logged
in or the question is not in the list; alerts and stops when the viewer
is not the author; stops when the confirm dialog is declined; otherwise
removes the question optimistically and, on either failure kind, alerts
and triggers `fetchQuestions`. -/
def deleteQuestionRun (user : Option String) (qs : List Question)
    (questionId : Nat) (confirmed : Bool) (outcome : Outcome Unit) :
    HandlerResult :=
  match user with
  | none => ⟨qs, false, false⟩
  | some username =>
    match qs.find? (fun q => q.id = questionId) with
    | none => ⟨qs, false, false⟩
    | some target =>
      if target.author ≠ username then ⟨qs, true, false⟩
      else if ¬ confirmed then ⟨qs, false, false⟩
      else
        let optimistic := qs.filter fun q => ¬ q.id = questionId
        match outcome with
        | .ok _ => ⟨optimistic, false, false⟩
        | _ => ⟨optimistic, true, true⟩

/-- `saveEditQuestion` in `ForumFeed.tsx`: stops when not logged in or
the trimmed content is empty; otherwise issues the PUT with no local
change, and only on a 2xx response replaces the question by the
server-returned body; on either failure kind it alerts and leaves the
replica unchanged. -/
def saveEditQuestionRun (user : Option String) (qs : List Question)
    (questionId : Nat) (editContent : String) (outcome : Outcome Question) :
    HandlerResult :=
  match user with
  | none => ⟨qs, false, false⟩
  | some _ =>
    if (jsTrim editContent) = "" then ⟨qs, false, false⟩
    else
      match outcome with
      | .ok body =>
        ⟨qs.map (fun q => if q.id = questionId then body else q), false, false⟩
      | _ => ⟨qs, true, false⟩

/-- `submitQuestion` in `ForumFeed.tsx`: stops on empty trimmed content;
on a 2xx response clears the form and triggers `fetchQuestions` (the
created question is never inserted locally); a non-2xx response is
silently ignored; a network failure alerts. -/
def submitQuestionRun (qs : List Question) (inputContent : String)
    (outcome : Outcome Question) : HandlerResult :=
  if (jsTrim inputContent) = "" then ⟨qs, false, false⟩
  else
    match outcome with
    | .ok _ => ⟨qs, false, true⟩
    | .rejected _ => ⟨qs, false, false⟩
    | .netError => ⟨qs, true, false⟩

/-- The two phases of `saveEditQuestion`: the replica visible between
the synchronous start of the handler and the arrival of the response
(`preResponse` — the source contains no `setQuestions` call before the
`await`), and the completion as a function of the outcome. -/
structure EditTrace where
  preResponse : List Question
  postOutcome : Outcome Question → HandlerResult

/-- Trace of one `saveEditQuestion` call. -/
def saveEditQuestionTrace (user : Option String) (qs : List Question)
    (questionId : Nat) (editContent : String) : EditTrace :=
  { preResponse := qs
    postOutcome := fun o => saveEditQuestionRun user qs questionId editContent o }

/-- `saveEditQuestion` in `QuestionThread` (Markdown.tsx): same
discipline over the single `question : Question | null` state — no local
change before the response, `setQuestion(data)` only on a 2xx response,
alert on either failure kind.  Returns the question state and whether an
alert was shown. -/
def threadSaveEditQuestionRun (user : Option String)
    (question : Option Question) (editContent : String)
    (outcome : Outcome Question) : Option Question × Bool :=
  match user with
  | none => (question, false)
  | some _ =>
    match question with
    | none => (question, false)
    | some _ =>
      if (jsTrim editContent) = "" then (question, false)
      else
        match outcome with
        | .ok body => (some body, false)
        | _ => (question, true)

/-! ## Reconciliation / polling loop

`fetchQuestions` runs on mount and every 10 seconds.  Its completion
applies `setQuestions(data)` whenever the response is 2xx and does
nothing otherwise; the source contains no sequence counter, generation
tag, or any other guard, so completions are applied purely in arrival
order. -/

/-- Completion of one `fetchQuestions` call: `if (res.ok) setQuestions(data)`,
failures (network error or non-2xx) leave the replica as it was. -/
def applyPollResult (current : List Question) (outcome : Outcome (List Question)) :
    List Question :=
  match outcome with
  | .ok data => data
  | _ => current

/-- One poll completion, tagged with the sequence number of the poll
that started it (1 for the first poll started, 2 for the second, ...).
The tag exists only in this model: the source stores no such number. -/
structure PollCompletion where
  seq : Nat
  outcome : Outcome (List Question)
deriving DecidableEq

/-- Replica after a list of poll completions is processed in arrival
order. -/
def processPolls (init : List Question) (arrivals : List PollCompletion) :
    List Question :=
  arrivals.foldl (fun s c => applyPollResult s c.outcome) init

/-! ## Chat transcript (`AIChatWindow.tsx`, `LecturerInsightBoard`) -/

/-- Message role: the union type `'user' | 'model'`. -/
inductive Role where
  | user
  | model
deriving DecidableEq

/-- One transcript entry. -/
structure ChatMessage where
  role : Role
  content : String
  timestamp : String
deriving DecidableEq

/-- `sendMessage` in `AIChatWindow.tsx`: stop on empty trimmed input or
while loading; append the user message optimistically; then on a 2xx
response append the model reply (`data.response ?? ''`), and on either
failure kind append a fixed error text as a model message — the user
message is never removed. -/
def sendMessageRun (messages : List ChatMessage) (input : String)
    (loading : Bool) (sendTime replyTime : String)
    (outcome : Outcome (Option String)) : List ChatMessage :=
  if (jsTrim input) = "" then messages
  else if loading then messages
  else
    let afterUser := messages ++ [⟨Role.user, input, sendTime⟩]
    match outcome with
    | .ok response => afterUser ++ [⟨Role.model, response.getD "", replyTime⟩]
    | _ => afterUser ++ [⟨Role.model, "エラー: AIに接続できませんでした。", replyTime⟩]

/-- `askInsight` in `App.tsx` (`LecturerInsightBoard`): identical shape
to `sendMessage`, with its own error text. -/
def askInsightRun (messages : List ChatMessage) (input : String)
    (loading : Bool) (sendTime replyTime : String)
    (outcome : Outcome (Option String)) : List ChatMessage :=
  if (jsTrim input) = "" then messages
  else if loading then messages
  else
    let afterUser := messages ++ [⟨Role.user, input, sendTime⟩]
    match outcome with
    | .ok response => afterUser ++ [⟨Role.model, response.getD "", replyTime⟩]
    | _ => afterUser ++ [⟨Role.model, "エラー: インサイトを取得できませんでした。", replyTime⟩]

/-! ## Chat session keys -/

/-- `AIChatWindow.tsx`: `student-${user.id}` for a logged-in student. -/
def studentSessionId (userId : Nat) : String :=
  "student-" ++ toString userId

/-- `LecturerInsightBoard` in `App.tsx`: `lecturer-${user.id}`. -/
def lecturerSessionId (userId : Nat) : String :=
  "lecturer-" ++ toString userId

/-- `AIChatWindow.tsx` fallback when not logged in:
`'guest-' + Math.random().toString(36).substr(2, 9)`, modelled with the
random suffix as a parameter. -/
def guestSessionId (randomSuffix : String) : String :=
  "guest-" ++ randomSuffix

/-! ## Derived predicates and sample replica states -/

/-- All counts of a reaction map are nonnegative. -/
abbrev nonnegCounts (m : Reactions) : Prop := ∀ p ∈ m, 0 ≤ p.2

/-- A question replica with no reactions, as the server would deliver a
fresh question. -/
def sampleQ : Question :=
  { id := 1, author := "alice", content := "old", tags := ["js"],
    resolved := false, reactions := [], user_reaction := none,
    comment_count := 0 }

/-- The same question after the viewer reacted `like` (consistent count). -/
def sampleQLike : Question :=
  { sampleQ with reactions := [("like", 1)], user_reaction := some "like" }

/-- An inconsistent replica state the client must tolerate: the viewer's
active reaction is `like` but the server-supplied count map has no
`like` entry. -/
def sampleQLikeZero : Question :=
  { sampleQ with reactions := [], user_reaction := some "like" }

/-- A later server state of the same question. -/
def sampleQNewer : Question :=
  { sampleQ with content := "newer" }

/-! ## Association-list lemmas -/

theorem recGet_recSet_self (m : Reactions) (k : String) (v : Int) :
    recGet (recSet m k v) k = some v := by
  induction m with
  | nil => simp [recSet, recGet]
  | cons p rest ih =>
    obtain ⟨k₀, v₀⟩ := p
    by_cases h : k₀ = k
    · simp [recSet, recGet, h]
    · simp [recSet, recGet, h, ih]

theorem recGet_recSet_ne (m : Reactions) (k j : String) (v : Int)
    (h : j ≠ k) : recGet (recSet m k v) j = recGet m j := by
  have hkj : ¬ k = j := fun e => h e.symm
  induction m with
  | nil => simp [recSet, recGet, hkj]
  | cons p rest ih =>
    obtain ⟨k₀, v₀⟩ := p
    by_cases h₀ : k₀ = k
    · have h₁ : ¬ k₀ = j := by rw [h₀]; exact hkj
      simp [recSet, recGet, h₀, h₁, hkj]
    · simp [recSet, recGet, h₀, ih]

theorem recGetD_recSet_self (m : Reactions) (k : String) (v : Int) :
    recGetD (recSet m k v) k = v := by
  simp [recGetD, recGet_recSet_self]

theorem recGetD_recSet_ne (m : Reactions) (k j : String) (v : Int)
    (h : j ≠ k) : recGetD (recSet m k v) j = recGetD m j := by
  simp [recGetD, recGet_recSet_ne m k j v h]

theorem recGetD_nonneg (m : Reactions) (h : nonnegCounts m) (k : String) :
    0 ≤ recGetD m k := by
  induction m with
  | nil => simp [recGetD, recGet]
  | cons p rest ih =>
    obtain ⟨k₀, v₀⟩ := p
    by_cases h₀ : k₀ = k
    · simpa [recGetD, recGet, h₀] using h (k₀, v₀) (by simp)
    · have ih₂ := ih fun p hp => h p (List.mem_cons_of_mem _ hp)
      simpa [recGetD, recGet, h₀] using ih₂

theorem recSet_nonneg (m : Reactions) (k : String) (v : Int)
    (h : nonnegCounts m) (hv : 0 ≤ v) : nonnegCounts (recSet m k v) := by
  induction m with
  | nil => simpa [recSet, nonnegCounts] using hv
  | cons p rest ih =>
    obtain ⟨k₀, v₀⟩ := p
    by_cases h₀ : k₀ = k
    · intro q hq
      rcases (by simpa [recSet, h₀] using hq : q = (k, v) ∨ q ∈ rest) with h₁ | h₁
      · simpa [h₁] using hv
      · exact h q (List.mem_cons_of_mem _ h₁)
    · intro q hq
      rcases (by simpa [recSet, h₀] using hq :
          q = (k₀, v₀) ∨ q ∈ recSet rest k v) with h₁ | h₁
      · exact h q (by simp [h₁])
      · exact ih (fun p hp => h p (List.mem_cons_of_mem _ hp)) q h₁

/-! ## Toggle lemmas -/

/-- Double toggle of the same truthy kind restores the reaction state as
read through `recGetD`, provided the pre-state is consistent for that
kind: either no active reaction (with a nonnegative count for the kind)
or the kind itself active with count at least 1. -/
theorem toggle_toggle (s : ReactionState) (k : String) (hk : k ≠ "")
    (h : (s.user_reaction = none ∧ 0 ≤ recGetD s.reactions k) ∨
         (s.user_reaction = some k ∧ 1 ≤ recGetD s.reactions k)) :
    (toggleReaction (toggleReaction s k) k).user_reaction = s.user_reaction ∧
    ∀ j, recGetD (toggleReaction (toggleReaction s k) k).reactions j =
      recGetD s.reactions j := by
  rcases h with ⟨hur, hnn⟩ | ⟨hur, h1⟩
  · have h2 : toggleReaction s k =
        ⟨recSet s.reactions k (recGetD s.reactions k + 1), some k⟩ := by
      simp [toggleReaction, hur]
    have hget : recGetD (recSet s.reactions k (recGetD s.reactions k + 1)) k
        = recGetD s.reactions k + 1 := recGetD_recSet_self _ _ _
    have hmax : (0 : Int) ⊔ recGetD s.reactions k = recGetD s.reactions k :=
      max_eq_right hnn
    have h3 : toggleReaction
        ⟨recSet s.reactions k (recGetD s.reactions k + 1), some k⟩ k =
        ⟨recSet (recSet s.reactions k (recGetD s.reactions k + 1)) k
          (recGetD s.reactions k), none⟩ := by
      simp [toggleReaction, hk, hget, hmax]
    rw [h2, h3, hur]
    refine ⟨rfl, fun j => ?_⟩
    by_cases hj : j = k
    · subst hj; simp [recGetD_recSet_self]
    · simp [recGetD_recSet_ne _ _ _ _ hj]
  · have hmax : max 0 (recGetD s.reactions k - 1) = recGetD s.reactions k - 1 :=
      max_eq_right (by omega)
    have h2 : toggleReaction s k =
        ⟨recSet s.reactions k (recGetD s.reactions k - 1), none⟩ := by
      simp [toggleReaction, hur, hk, hmax]
    have hget : recGetD (recSet s.reactions k (recGetD s.reactions k - 1)) k
        = recGetD s.reactions k - 1 := recGetD_recSet_self _ _ _
    have h3 : toggleReaction
        ⟨recSet s.reactions k (recGetD s.reactions k - 1), none⟩ k =
        ⟨recSet (recSet s.reactions k (recGetD s.reactions k - 1)) k
          (recGetD s.reactions k), some k⟩ := by
      simp [toggleReaction, hget, Int.sub_add_cancel]
    rw [h2, h3, hur]
    refine ⟨rfl, fun j => ?_⟩
    by_cases hj : j = k
    · subst hj; simp [recGetD_recSet_self]
    · simp [recGetD_recSet_ne _ _ _ _ hj]

/-- Toggling kind `k` while a different truthy kind `j` is active (with
consistent count): one transition to `active k`, `j`'s count down one,
`k`'s count up one, all other counts unchanged. -/
theorem toggle_switch (s : ReactionState) (j k : String) (hj : j ≠ "")
    (hjk : j ≠ k) (hur : s.user_reaction = some j)
    (h1 : 1 ≤ recGetD s.reactions j) :
    (toggleReaction s k).user_reaction = some k ∧
    recGetD (toggleReaction s k).reactions j = recGetD s.reactions j - 1 ∧
    recGetD (toggleReaction s k).reactions k = recGetD s.reactions k + 1 ∧
    ∀ i, i ≠ j → i ≠ k →
      recGetD (toggleReaction s k).reactions i = recGetD s.reactions i := by
  have hmax : max 0 (recGetD s.reactions j - 1) = recGetD s.reactions j - 1 :=
    max_eq_right (by omega)
  have hne : ¬ (some j = some k) := by simpa using hjk
  have hgk : recGetD (recSet s.reactions j (recGetD s.reactions j - 1)) k
      = recGetD s.reactions k := recGetD_recSet_ne _ _ _ _ (fun e => hjk e.symm)
  have h2 : toggleReaction s k =
      ⟨recSet (recSet s.reactions j (recGetD s.reactions j - 1)) k
        (recGetD s.reactions k + 1), some k⟩ := by
    simp [toggleReaction, hur, hj, hmax, hne, hgk]
  rw [h2]
  refine ⟨rfl, ?_, ?_, ?_⟩
  · rw [recGetD_recSet_ne _ _ _ _ hjk, recGetD_recSet_self]
  · rw [recGetD_recSet_self]
  · intro i hij hik
    rw [recGetD_recSet_ne _ _ _ _ hik, recGetD_recSet_ne _ _ _ _ hij]

/-- The toggle never produces a negative count when all incoming counts
are nonnegative. -/
theorem toggle_nonneg (s : ReactionState) (rt : String)
    (h : nonnegCounts s.reactions) :
    nonnegCounts (toggleReaction s rt).reactions := by
  obtain ⟨m, ur⟩ := s
  have hinc : ∀ (m' : Reactions), nonnegCounts m' → 0 ≤ recGetD m' rt + 1 := by
    intro m' hm'
    have := recGetD_nonneg m' hm' rt
    omega
  cases ur with
  | none =>
    simpa [toggleReaction] using recSet_nonneg _ _ _ h (hinc m h)
  | some old =>
    have hcounts : nonnegCounts (if old = "" then m
        else recSet m old (max 0 (recGetD m old - 1))) := by
      by_cases h₀ : old = ""
      · simpa [h₀] using h
      · simpa [h₀] using recSet_nonneg m old _ h (le_max_left _ _)
    by_cases h₁ : old = rt
    · simpa [toggleReaction, h₁] using hcounts
    · simpa [toggleReaction, h₁] using
        recSet_nonneg _ rt _ hcounts (hinc _ hcounts)

/-- Removing the active kind clamps at zero even when the count map has
no entry for it. -/
theorem toggle_clamp_missing (s : ReactionState) (rt : String)
    (hrt : rt ≠ "") (hur : s.user_reaction = some rt)
    (hmiss : recGet s.reactions rt = none) :
    recGetD (toggleReaction s rt).reactions rt = 0 := by
  have hg : recGetD s.reactions rt = 0 := by simp [recGetD, hmiss]
  have h2 : toggleReaction s rt =
      ⟨recSet s.reactions rt (max 0 (recGetD s.reactions rt - 1)), none⟩ := by
    simp [toggleReaction, hur, hrt]
  rw [h2]
  simp [recGetD_recSet_self, hg]

/-! ## Claim C3: double toggle of the same reaction kind -/

/-- Claim C3 (counterexample): toggling the same kind twice is not an
involution on the replica in general.  Starting from a question whose
active reaction is `like` (count 1), toggling `funny` twice ends with no
active reaction (and the `like` count clamped at 0), not the pre-toggle
state. -/
theorem double_toggle_not_involutive_cex :
    reactOptimistic (reactOptimistic sampleQLike "funny") "funny" ≠ sampleQLike ∧
    (reactOptimistic (reactOptimistic sampleQLike "funny") "funny").user_reaction
      = none ∧ sampleQLike.user_reaction = some "like" := by
  decide

/-- Claim C3 (amended): for a nonempty reaction kind `k`, toggling `k`
twice restores `user_reaction` and every per-kind count as the UI reads
it (`reactions[j] || 0`), provided the pre-toggle state is consistent
for `k`: either no active reaction (with a nonnegative `k` count), or
`k` itself active with count at least 1.  When a different kind is
active the double toggle instead ends with no active reaction, per the
counterexample. -/
theorem double_toggle_restores (q : Question) (k : String) (hk : k ≠ "")
    (h : (q.user_reaction = none ∧ 0 ≤ recGetD q.reactions k) ∨
         (q.user_reaction = some k ∧ 1 ≤ recGetD q.reactions k)) :
    (reactOptimistic (reactOptimistic q k) k).user_reaction = q.user_reaction ∧
    ∀ j, recGetD (reactOptimistic (reactOptimistic q k) k).reactions j =
      recGetD q.reactions j :=
  toggle_toggle ⟨q.reactions, q.user_reaction⟩ k hk h

/-- Claim C3 (witness): `double_toggle_restores` instantiated on a fresh
question and the kind `like`. -/
theorem double_toggle_restores_witness :
    (("like" : String) ≠ "" ∧ sampleQ.user_reaction = none ∧
      0 ≤ recGetD sampleQ.reactions "like") ∧
    (reactOptimistic (reactOptimistic sampleQ "like") "like").user_reaction
      = sampleQ.user_reaction ∧
    recGetD (reactOptimistic (reactOptimistic sampleQ "like") "like").reactions
      "like" = recGetD sampleQ.reactions "like" :=
  ⟨⟨by decide, by decide, by decide⟩,
    (double_toggle_restores sampleQ "like" (by decide)
      (Or.inl ⟨by decide, by decide⟩)).1,
    (double_toggle_restores sampleQ "like" (by decide)
      (Or.inl ⟨by decide, by decide⟩)).2 "like"⟩

/-! ## Claim C4: at most one active reaction kind -/

/-- Claim C4 (confirmed): after any sequence of optimistic reaction
toggles on a question or a comment, the replica's `user_reaction` is
`none` or exactly one kind, and two kinds are never simultaneously
active (activity as the UI computes it: `user_reaction === type`). -/
theorem single_active_reaction :
    (∀ (q : Question) (toggles : List String),
      (toggles.foldl reactOptimistic q).user_reaction = none ∨
      ∃ k, (toggles.foldl reactOptimistic q).user_reaction = some k) ∧
    (∀ (q : Question) (toggles : List String) (k₁ k₂ : String),
      (toggles.foldl reactOptimistic q).user_reaction = some k₁ →
      (toggles.foldl reactOptimistic q).user_reaction = some k₂ → k₁ = k₂) ∧
    (∀ (c : Comment) (toggles : List String) (k₁ k₂ : String),
      (toggles.foldl commentReactOptimistic c).user_reaction = some k₁ →
      (toggles.foldl commentReactOptimistic c).user_reaction = some k₂ →
      k₁ = k₂) := by
  refine ⟨fun q toggles => ?_, fun q toggles k₁ k₂ h₁ h₂ => ?_,
    fun c toggles k₁ k₂ h₁ h₂ => ?_⟩
  · cases hu : (toggles.foldl reactOptimistic q).user_reaction with
    | none => exact Or.inl rfl
    | some k => exact Or.inr ⟨k, rfl⟩
  · exact Option.some.inj (h₁.symm.trans h₂)
  · exact Option.some.inj (h₁.symm.trans h₂)

/-- Claim C4 (witness): `single_active_reaction` instantiated on a fresh
question after toggling `like` then `funny`. -/
theorem single_active_reaction_witness :
    ((["like", "funny"].foldl reactOptimistic sampleQ).user_reaction
      = some "funny") ∧ ("funny" : String) = "funny" :=
  ⟨by decide,
    single_active_reaction.2.1 sampleQ ["like", "funny"] "funny" "funny"
      (by decide) (by decide)⟩

/-! ## Claim C5: like → funny transition -/

/-- Claim C5 (counterexample): on an inconsistent replica state whose
`user_reaction` is `like` while the count map lacks a `like` entry (the
UI reads the count as 0), toggling `funny` clamps the `like` count at 0
instead of decreasing it by 1. -/
theorem like_to_funny_clamped_cex :
    ¬ ((reactOptimistic sampleQLikeZero "funny").user_reaction = some "funny" ∧
       recGetD (reactOptimistic sampleQLikeZero "funny").reactions "like" =
         recGetD sampleQLikeZero.reactions "like" - 1) := by
  decide

/-- Claim C5 (amended): for every question whose `user_reaction` is
`like` with a `like` count of at least 1, toggling `funny` is one
transition: `like` count down one, `funny` count up one, all other
counts unchanged, final `user_reaction = funny`.  (When the `like` count
reads 0 the decrement is clamped at 0, per the counterexample.) -/
theorem like_to_funny_transition (q : Question)
    (hur : q.user_reaction = some "like")
    (h1 : 1 ≤ recGetD q.reactions "like") :
    (reactOptimistic q "funny").user_reaction = some "funny" ∧
    recGetD (reactOptimistic q "funny").reactions "like"
      = recGetD q.reactions "like" - 1 ∧
    recGetD (reactOptimistic q "funny").reactions "funny"
      = recGetD q.reactions "funny" + 1 ∧
    ∀ j, j ≠ "like" → j ≠ "funny" →
      recGetD (reactOptimistic q "funny").reactions j = recGetD q.reactions j :=
  toggle_switch ⟨q.reactions, q.user_reaction⟩ "like" "funny" (by decide)
    (by decide) hur h1

/-- Claim C5 (witness): `like_to_funny_transition` on a question with a
consistent `like` reaction. -/
theorem like_to_funny_transition_witness :
    (sampleQLike.user_reaction = some "like" ∧
      1 ≤ recGetD sampleQLike.reactions "like") ∧
    (reactOptimistic sampleQLike "funny").user_reaction = some "funny" ∧
    recGetD (reactOptimistic sampleQLike "funny").reactions "like"
      = recGetD sampleQLike.reactions "like" - 1 ∧
    recGetD (reactOptimistic sampleQLike "funny").reactions "funny"
      = recGetD sampleQLike.reactions "funny" + 1 ∧
    recGetD (reactOptimistic sampleQLike "funny").reactions "insightful"
      = recGetD sampleQLike.reactions "insightful" :=
  ⟨⟨by decide, by decide⟩,
    (like_to_funny_transition sampleQLike (by decide) (by decide)).1,
    (like_to_funny_transition sampleQLike (by decide) (by decide)).2.1,
    (like_to_funny_transition sampleQLike (by decide) (by decide)).2.2.1,
    (like_to_funny_transition sampleQLike (by decide) (by decide)).2.2.2
      "insightful" (by decide) (by decide)⟩

/-! ## Claim C10: counts never go negative -/

/-- Claim C10 (confirmed): the optimistic reaction update on a question
or comment preserves nonnegativity of every count (the decrement is
written `Math.max(0, (counts[k] || 0) - 1)`), and removing the active
kind clamps at 0 even when the server-supplied count map has no entry
for that kind. -/
theorem react_counts_nonneg :
    (∀ (q : Question) (rt : String), nonnegCounts q.reactions →
      nonnegCounts (reactOptimistic q rt).reactions) ∧
    (∀ (c : Comment) (rt : String), nonnegCounts c.reactions →
      nonnegCounts (commentReactOptimistic c rt).reactions) ∧
    (∀ (q : Question) (rt : String), rt ≠ "" → q.user_reaction = some rt →
      recGet q.reactions rt = none →
      recGetD (reactOptimistic q rt).reactions rt = 0) :=
  ⟨fun q rt h => toggle_nonneg ⟨q.reactions, q.user_reaction⟩ rt h,
   fun c rt h => toggle_nonneg ⟨c.reactions, c.user_reaction⟩ rt h,
   fun q rt hrt hur hmiss =>
     toggle_clamp_missing ⟨q.reactions, q.user_reaction⟩ rt hrt hur hmiss⟩

/-- Claim C10 (witness): `react_counts_nonneg` on the inconsistent state
whose active kind has no count entry. -/
theorem react_counts_nonneg_witness :
    (nonnegCounts sampleQLikeZero.reactions ∧
      sampleQLikeZero.user_reaction = some "like" ∧
      recGet sampleQLikeZero.reactions "like" = none) ∧
    nonnegCounts (reactOptimistic sampleQLikeZero "like").reactions ∧
    recGetD (reactOptimistic sampleQLikeZero "like").reactions "like" = 0 :=
  ⟨⟨by decide, by decide, by decide⟩,
    react_counts_nonneg.1 sampleQLikeZero "like" (by decide),
    react_counts_nonneg.2.2 sampleQLikeZero "like" (by decide) (by decide)
      (by decide)⟩

/-! ## Claim C1: failure handling of the mutation pipeline -/

/-- Claim C1 (counterexample): a server rejection (non-2xx) of a react
mutation leaves the optimistic delta in the replica — no rollback, no
user-visible error, no re-fetch: `handleReaction` never checks
`res.ok`. -/
theorem react_rejected_keeps_delta_cex :
    (handleReactionRun (some "alice") [sampleQ] 1 "like"
      (Outcome.rejected none)).questions ≠ [sampleQ] ∧
    (handleReactionRun (some "alice") [sampleQ] 1 "like"
      (Outcome.rejected none)).alerted = false ∧
    (handleReactionRun (some "alice") [sampleQ] 1 "like"
      (Outcome.rejected none)).refetched = false := by
  decide

/-- Claim C1 (amended): failure handling is per mutation, and no failure
path restores the pre-mutation replica in place.  React keeps the
optimistic delta on both failure kinds and triggers a silent re-fetch
only on network failure (a server rejection is undetected).  Resolve and
delete keep their optimistic patch/removal and alert and re-fetch on
both failure kinds.  Edit and create apply no optimistic delta, so the
replica is unchanged on failure; edit alerts on both kinds, create
alerts only on network failure and silently ignores a server
rejection. -/
theorem mutation_failure_modes :
    (∀ (u : String) (qs : List Question) (qid : Nat) (rt : String),
      handleReactionRun (some u) qs qid rt Outcome.netError =
        ⟨applyReactToList qs qid rt, false, true⟩ ∧
      ∀ d, handleReactionRun (some u) qs qid rt (Outcome.rejected d) =
        ⟨applyReactToList qs qid rt, false, false⟩) ∧
    (∀ (u : String) (qs : List Question) (qid : Nat) (r : Bool),
      setResolvedRun (some u) qs qid r Outcome.netError =
        ⟨qs.map fun q => if q.id = qid then { q with resolved := r } else q,
          true, true⟩ ∧
      ∀ d, setResolvedRun (some u) qs qid r (Outcome.rejected d) =
        ⟨qs.map fun q => if q.id = qid then { q with resolved := r } else q,
          true, true⟩) ∧
    (∀ (u : String) (qs : List Question) (qid : Nat) (t : Question),
      qs.find? (fun q => q.id = qid) = some t → t.author = u →
      deleteQuestionRun (some u) qs qid true Outcome.netError =
        ⟨qs.filter fun q => ¬ q.id = qid, true, true⟩ ∧
      ∀ d, deleteQuestionRun (some u) qs qid true (Outcome.rejected d) =
        ⟨qs.filter fun q => ¬ q.id = qid, true, true⟩) ∧
    (∀ (u : String) (qs : List Question) (qid : Nat) (ec : String),
      jsTrim ec ≠ "" →
      saveEditQuestionRun (some u) qs qid ec Outcome.netError =
        ⟨qs, true, false⟩ ∧
      ∀ d, saveEditQuestionRun (some u) qs qid ec (Outcome.rejected d) =
        ⟨qs, true, false⟩) ∧
    (∀ (qs : List Question) (ic : String), jsTrim ic ≠ "" →
      submitQuestionRun qs ic Outcome.netError = ⟨qs, true, false⟩ ∧
      ∀ d, submitQuestionRun qs ic (Outcome.rejected d) = ⟨qs, false, false⟩) := by
  refine ⟨fun u qs qid rt => ⟨rfl, fun d => rfl⟩,
          fun u qs qid r => ⟨rfl, fun d => rfl⟩,
          fun u qs qid t hfind hauth => ?_,
          fun u qs qid ec hec => ?_,
          fun qs ic hic => ?_⟩
  · exact ⟨by simp [deleteQuestionRun, hfind, hauth],
      fun d => by simp [deleteQuestionRun, hfind, hauth]⟩
  · exact ⟨by simp [saveEditQuestionRun, hec],
      fun d => by simp [saveEditQuestionRun, hec]⟩
  · exact ⟨by simp [submitQuestionRun, hic],
      fun d => by simp [submitQuestionRun, hic]⟩

/-- Claim C1 (witness): `mutation_failure_modes` instantiated for a
delete network failure and an edit server rejection on a one-question
replica. -/
theorem mutation_failure_modes_witness :
    ([sampleQ].find? (fun q => q.id = 1) = some sampleQ ∧
      sampleQ.author = "alice" ∧ jsTrim "new content" ≠ "") ∧
    deleteQuestionRun (some "alice") [sampleQ] 1 true Outcome.netError =
      ⟨[], true, true⟩ ∧
    saveEditQuestionRun (some "alice") [sampleQ] 1 "new content"
      (Outcome.rejected none) = ⟨[sampleQ], true, false⟩ := by
  refine ⟨⟨by decide, by decide, by decide⟩, ?_, ?_⟩
  · have h := (mutation_failure_modes.2.2.1 "alice" [sampleQ] 1 sampleQ
      (by decide) (by decide)).1
    rw [h]; decide
  · exact (mutation_failure_modes.2.2.2.1 "alice" [sampleQ] 1 "new content"
      (by decide)).2 none

/-! ## Claim C2: poll ordering -/

/-- Claim C2 (counterexample): a poll result that arrives after a more
recently started poll's result has already been applied is NOT
discarded: `fetchQuestions` applies every 2xx response unconditionally,
so the stale list overwrites the newer one. -/
theorem stale_poll_overwrites_cex :
    processPolls [] [⟨2, Outcome.ok [sampleQNewer]⟩, ⟨1, Outcome.ok [sampleQ]⟩]
      = [sampleQ] ∧ [sampleQ] ≠ [sampleQNewer] := by
  decide

/-- Claim C2 (amended): poll completions are applied to the replica in
arrival order, last write wins; the poll's start sequence number plays
no role whatsoever (there is no sequence guard in the source), so the
last successfully completed poll — started earlier or later — always
determines the replica. -/
theorem poll_apply_order :
    (∀ (init : List Question) (s₁ s₂ : Nat) (o : Outcome (List Question)),
      processPolls init [⟨s₁, o⟩] = processPolls init [⟨s₂, o⟩]) ∧
    (∀ (init : List Question) (pre : List PollCompletion)
        (c : PollCompletion) (data : List Question),
      c.outcome = Outcome.ok data → processPolls init (pre ++ [c]) = data) := by
  refine ⟨fun init s₁ s₂ o => rfl, fun init pre c data hc => ?_⟩
  simp [processPolls, List.foldl_append, applyPollResult, hc]

/-- Claim C2 (witness): `poll_apply_order` instantiated — the stale
completion of poll 1, arriving last, determines the replica. -/
theorem poll_apply_order_witness :
    (⟨1, Outcome.ok [sampleQ]⟩ : PollCompletion).outcome
      = Outcome.ok [sampleQ] ∧
    processPolls []
      ([⟨2, Outcome.ok [sampleQNewer]⟩] ++ [⟨1, Outcome.ok [sampleQ]⟩])
      = [sampleQ] :=
  ⟨rfl, poll_apply_order.2 [] [⟨2, Outcome.ok [sampleQNewer]⟩]
    ⟨1, Outcome.ok [sampleQ]⟩ [sampleQ] rfl⟩

/-! ## Claim C6: edit is not optimistic -/

/-- Claim C6 (counterexample): while an edit's PUT is in flight, the
replica still holds the old content — `saveEditQuestion` performs no
`setQuestions` call before awaiting the response. -/
theorem edit_not_optimistic_cex :
    (saveEditQuestionTrace (some "alice") [sampleQ] 1 "new content").preResponse
      = [sampleQ] ∧ sampleQ.content ≠ "new content" :=
  ⟨rfl, by decide⟩

/-- Claim C6 (amended): an edit mutation is applied to the replica only
after a successful response, using the server-returned canonical
question; the replica is untouched before the response arrives and on
either failure kind. -/
theorem edit_applies_on_success :
    (∀ (u : Option String) (qs : List Question) (qid : Nat) (ec : String),
      (saveEditQuestionTrace u qs qid ec).preResponse = qs) ∧
    (∀ (u : String) (qs : List Question) (qid : Nat) (ec : String)
        (body : Question), jsTrim ec ≠ "" →
      ((saveEditQuestionTrace (some u) qs qid ec).postOutcome
        (Outcome.ok body)).questions
        = qs.map fun q => if q.id = qid then body else q) ∧
    (∀ (u : String) (qs : List Question) (qid : Nat) (ec : String),
      jsTrim ec ≠ "" →
      (saveEditQuestionTrace (some u) qs qid ec).postOutcome Outcome.netError
        = ⟨qs, true, false⟩ ∧
      ∀ d, (saveEditQuestionTrace (some u) qs qid ec).postOutcome
        (Outcome.rejected d) = ⟨qs, true, false⟩) ∧
    (∀ (u : String) (q : Question) (ec : String) (body : Question),
      jsTrim ec ≠ "" →
      threadSaveEditQuestionRun (some u) (some q) ec (Outcome.ok body)
        = (some body, false)) ∧
    (∀ (u : String) (q : Question) (ec : String), jsTrim ec ≠ "" →
      threadSaveEditQuestionRun (some u) (some q) ec Outcome.netError
        = (some q, true) ∧
      ∀ d, threadSaveEditQuestionRun (some u) (some q) ec (Outcome.rejected d)
        = (some q, true)) := by
  refine ⟨fun u qs qid ec => rfl, fun u qs qid ec body hec => ?_,
    fun u qs qid ec hec => ?_, fun u q ec body hec => ?_, fun u q ec hec => ?_⟩
  · simp [saveEditQuestionTrace, saveEditQuestionRun, hec]
  · exact ⟨by simp [saveEditQuestionTrace, saveEditQuestionRun, hec],
      fun d => by simp [saveEditQuestionTrace, saveEditQuestionRun, hec]⟩
  · simp [threadSaveEditQuestionRun, hec]
  · exact ⟨by simp [threadSaveEditQuestionRun, hec],
      fun d => by simp [threadSaveEditQuestionRun, hec]⟩

/-- Claim C6 (witness): `edit_applies_on_success` instantiated — the
server body replaces the question only in the success branch. -/
theorem edit_applies_on_success_witness :
    (jsTrim "new content" ≠ "") ∧
    ((saveEditQuestionTrace (some "alice") [sampleQ] 1 "new content").postOutcome
      (Outcome.ok sampleQNewer)).questions = [sampleQNewer] := by
  refine ⟨by decide, ?_⟩
  have h := edit_applies_on_success.2.1 "alice" [sampleQ] 1 "new content"
    sampleQNewer (by decide)
  rw [h]; decide

/-! ## Claim C7: the tags pipeline -/

/-- Claim C7 (counterexample): tags are NOT deduplicated: the input
`"js, js"` is sent as `["js", "js"]`, not `["js"]`. -/
theorem tags_no_dedup_cex :
    parseTags "js, js" = ["js", "js"] ∧ parseTags "js, js" ≠ ["js"] := by
  decide

/-- Claim C7 (amended): the submitted tag list is obtained by splitting
the input on commas, trimming each piece and dropping empty pieces —
with no deduplication (duplicates are submitted as often as they occur,
per the counterexample): every submitted tag is nonempty and is the trim
of one comma-separated piece of the input; in particular `"js, beginner"`
is sent as `["js", "beginner"]`. -/
theorem tags_split_trim_filter :
    (∀ (s t : String), t ∈ parseTags s → t ≠ "") ∧
    (∀ (s t : String), t ∈ parseTags s →
      ∃ piece ∈ jsSplitComma s, t = jsTrim piece) ∧
    parseTags "js, beginner" = ["js", "beginner"] ∧
    parseTags "  js ,, beginner " = ["js", "beginner"] := by
  refine ⟨fun s t ht => ?_, fun s t ht => ?_, by decide, by decide⟩
  · simp only [parseTags] at ht
    have h₂ := (List.mem_filter.mp ht).2
    exact of_decide_eq_true h₂
  · simp only [parseTags] at ht
    have h₁ := (List.mem_filter.mp ht).1
    obtain ⟨piece, hp, hpt⟩ := List.mem_map.mp h₁
    exact ⟨piece, hp, hpt.symm⟩

/-- Claim C7 (witness): `tags_split_trim_filter` instantiated on the tag
`js` inside the input `" js , beginner"`. -/
theorem tags_split_trim_filter_witness :
    (("js" : String) ∈ parseTags " js , beginner") ∧ ("js" : String) ≠ "" :=
  ⟨by decide, tags_split_trim_filter.1 " js , beginner" "js" (by decide)⟩

/-! ## Claim C8: chat send failure handling -/

/-- Claim C8 (counterexample): a failed chat send does NOT revert the
optimistically appended user message: from an empty transcript, a
network failure leaves the user message in place and appends a fixed
error text as a model message. -/
theorem chat_failure_not_reverted_cex :
    sendMessageRun [] "hi" false "t1" "t2" Outcome.netError ≠ [] ∧
    sendMessageRun [] "hi" false "t1" "t2" Outcome.netError =
      [⟨Role.user, "hi", "t1"⟩,
       ⟨Role.model, "エラー: AIに接続できませんでした。", "t2"⟩] := by
  decide

/-- Claim C8 (amended): on either failure kind, the chat send (and the
lecturer insight query) keeps the optimistically appended user message
and appends an error text as a model message; the transcript is never
restored to its pre-send state. -/
theorem chat_failure_appends_error :
    (∀ (ms : List ChatMessage) (input t₁ t₂ : String), jsTrim input ≠ "" →
      sendMessageRun ms input false t₁ t₂ Outcome.netError =
        ms ++ [⟨Role.user, input, t₁⟩,
               ⟨Role.model, "エラー: AIに接続できませんでした。", t₂⟩] ∧
      ∀ d, sendMessageRun ms input false t₁ t₂ (Outcome.rejected d) =
        ms ++ [⟨Role.user, input, t₁⟩,
               ⟨Role.model, "エラー: AIに接続できませんでした。", t₂⟩]) ∧
    (∀ (ms : List ChatMessage) (input t₁ t₂ : String), jsTrim input ≠ "" →
      askInsightRun ms input false t₁ t₂ Outcome.netError =
        ms ++ [⟨Role.user, input, t₁⟩,
               ⟨Role.model, "エラー: インサイトを取得できませんでした。", t₂⟩] ∧
      ∀ d, askInsightRun ms input false t₁ t₂ (Outcome.rejected d) =
        ms ++ [⟨Role.user, input, t₁⟩,
               ⟨Role.model, "エラー: インサイトを取得できませんでした。", t₂⟩]) := by
  constructor
  · intro ms input t₁ t₂ h
    exact ⟨by simp [sendMessageRun, h], fun d => by simp [sendMessageRun, h]⟩
  · intro ms input t₁ t₂ h
    exact ⟨by simp [askInsightRun, h], fun d => by simp [askInsightRun, h]⟩

/-- Claim C8 (witness): `chat_failure_appends_error` instantiated on a
rejected insight query from an empty transcript. -/
theorem chat_failure_appends_error_witness :
    (jsTrim "hi" ≠ "") ∧
    askInsightRun [] "hi" false "t1" "t2" (Outcome.rejected none) =
      [⟨Role.user, "hi", "t1"⟩,
       ⟨Role.model, "エラー: インサイトを取得できませんでした。", "t2"⟩] := by
  refine ⟨by decide, ?_⟩
  have h := (chat_failure_appends_error.2 [] "hi" "t1" "t2" (by decide)).2 none
  simpa using h

/-! ## Claim C9: the insight session key -/

/-- Claim C9 (counterexample): the insight view's chat session key is
not a single fixed constant shared by every privileged user — two
lecturers with different user ids get different keys. -/
theorem insight_key_not_constant_cex :
    lecturerSessionId 1 ≠ lecturerSessionId 2 := by decide

/-- Claim C9 (amended): the insight view's session key is derived from
the lecturer's user id (`lecturer-` followed by the id), so it differs
between privileged users; it is however distinct from every student
session key (`student-` followed by an id) and from every guest key
(`guest-` followed by a random suffix). -/
theorem insight_key_shape :
    (∀ userId : Nat, lecturerSessionId userId = "lecturer-" ++ toString userId) ∧
    (∀ (uL uS : Nat), lecturerSessionId uL ≠ studentSessionId uS) ∧
    (∀ (uL : Nat) (r : String), lecturerSessionId uL ≠ guestSessionId r) := by
  refine ⟨fun userId => rfl, fun uL uS h => ?_, fun uL r h => ?_⟩
  · simp only [lecturerSessionId, studentSessionId] at h
    have h₂ := congrArg (fun s => s.data.head?) h
    have hL : ("lecturer-" ++ toString uL).data.head? = some 'l' := rfl
    have hS : ("student-" ++ toString uS).data.head? = some 's' := rfl
    exact absurd (hL.symm.trans (h₂.trans hS)) (by decide)
  · simp only [lecturerSessionId, guestSessionId] at h
    have h₂ := congrArg (fun s => s.data.head?) h
    have hL : ("lecturer-" ++ toString uL).data.head? = some 'l' := rfl
    have hG : ("guest-" ++ r).data.head? = some 'g' := rfl
    exact absurd (hL.symm.trans (h₂.trans hG)) (by decide)

/-- Claim C9 (witness): `insight_key_shape` instantiated for user id 3
(note the lecturer and student keys differ even for the same id). -/
theorem insight_key_shape_witness :
    lecturerSessionId 3 = "lecturer-" ++ toString 3 ∧
    lecturerSessionId 3 ≠ studentSessionId 3 :=
  ⟨insight_key_shape.1 3, insight_key_shape.2.1 3 3⟩

end ChatApp
